import Mathlib

/-! Shallow embedding of src/multitool.py, translated definition by
definition from the Python source, with theorems about the calendar
formatting functions. -/

namespace Multitool

/-- Ordinal suffix function, from get_ordinal_suffix in the source. The
Python match statement compares n to the literals 11, 12 and 13 and
otherwise branches on n mod 10. -/
def get_ordinal_suffix (n : Nat) : String :=
  if n = 11 then "th"
  else if n = 12 then "th"
  else if n = 13 then "th"
  else
    match n % 10 with
    | 1 => "st"
    | 2 => "nd"
    | 3 => "rd"
    | _ => "th"

/-- Right justification to a given width with spaces, as the Python format
mini language does for a right aligned field. -/
def rjust (width : Nat) (s : String) : String :=
  if s.length < width then String.mk (List.replicate (width - s.length) ' ') ++ s else s

/-- One cell of a week row: the source passes ints, strings, or None. -/
inductive Cell where
  | intDay : Nat → Cell
  | strDay : String → Cell
  | empty : Cell
deriving DecidableEq

/-- format_date_table_day from the source: one space, a right justified
width four field holding the day number with its ordinal suffix, one
space. -/
def format_date_table_day (day : Nat) : String :=
  " " ++ rjust 4 (Nat.repr day ++ get_ordinal_suffix day) ++ " "

/-- day_formatter, the inner function of format_week. The formatter
parameter of the source is bound but never used and is omitted here. -/
def day_formatter : Cell → String
  | Cell.intDay day => format_date_table_day day
  | Cell.strDay day => " " ++ rjust 4 (day.take 4) ++ " "
  | Cell.empty => "      "

/-- Python str.join with a separator. -/
def str_join (sep : String) : List String → String
  | [] => ""
  | [a] => a
  | a :: b :: rest => a ++ sep ++ str_join sep (b :: rest)

/-- format_week from the source: joins the formatted cells with pipes and
bounds the row with pipes. The source performs no length validation on the
cell sequence. -/
def format_week (days : List Cell) : String :=
  "|" ++ str_join ("|") (days.map day_formatter) ++ "|"

/-- The weekday adjustment helper of the source: adds one modulo seven. -/
def _adjust_weekday (weekday : Nat) : Nat :=
  (weekday + 1) % 7

/-- Leap year test of the Python calendar and datetime modules. -/
def isleap (year : Int) : Bool :=
  year % 4 == 0 && (year % 100 != 0 || year % 400 == 0)

/-- Day counts per month from the calendar module, index zero unused. -/
def mdays : List Nat :=
  [0, 31, 28, 31, 30, 31, 30, 31, 31, 30, 31, 30, 31]

/-- Days before the given year, from the datetime module internals. -/
def days_before_year (y : Nat) : Nat :=
  (y - 1) * 365 + (y - 1) / 4 - (y - 1) / 100 + (y - 1) / 400

/-- Days before the given month within a year, from the datetime module
internals. -/
def days_before_month (y m : Nat) : Nat :=
  (mdays.take m).sum + (if 2 < m ∧ isleap (y : Int) = true then 1 else 0)

/-- Proleptic Gregorian ordinal of a date, day one being January first of
year one, from the datetime module. -/
def toordinal (y m d : Nat) : Nat :=
  days_before_year y + days_before_month y m + d

/-- Weekday of a date with Monday as zero through Sunday as six, from the
datetime module. -/
def date_weekday (y m d : Nat) : Nat :=
  (toordinal y m d + 6) % 7

/-- Weekday as the calendar module computes it: years outside 1..9999 are
first mapped to 2000 plus the year modulo 400. -/
def calendar_weekday (year : Int) (m d : Nat) : Nat :=
  let y : Int := if 1 ≤ year ∧ year ≤ 9999 then year else 2000 + year % 400
  date_weekday y.toNat m d

/-- Error raised by the monthrange function of the calendar module for a
month outside 1..12. -/
inductive CalendarError where
  | illegalMonth : Int → CalendarError
deriving DecidableEq

/-- monthrange from the calendar module: the weekday of the first day and
the number of days of the month, or the illegal month error. -/
def monthrange (year month : Int) : Except CalendarError (Nat × Nat) :=
  if 1 ≤ month ∧ month ≤ 12 then
    Except.ok (calendar_weekday year month.toNat 1,
      mdays.getD month.toNat 0 + (if month = 2 ∧ isleap year = true then 1 else 0))
  else
    Except.error (CalendarError.illegalMonth month)

/-- Observable evaluation state of format_month: every local variable the
source body computes, the value printed to standard output, and the
returned value. The source function body ends without a return statement,
so the returned value is None. -/
structure MonthState where
  month_start : Nat
  day_count : Nat
  weeks : Nat
  first_week : String
  next_week_start : Nat
  next_week_end : Nat
  printed : List Nat
  retval : Option (List String)
deriving DecidableEq

/-- format_month from the source: a year equal to zero is replaced by the
clock year, monthrange may raise, the weekday is adjusted, a week count and
the first week row are computed, the next week bounds are computed, the
value of the next week start is printed, and the function returns None. -/
def format_month (year month clock_year : Int) : Except CalendarError MonthState :=
  let year := if year = 0 then clock_year else year
  match monthrange year month with
  | Except.error e => Except.error e
  | Except.ok (month_start, day_count) =>
    let month_start := _adjust_weekday month_start
    let weeks := day_count / 7 + (if day_count % 7 ≠ 0 then 1 else 0)
    let first_week := format_week
      (List.replicate month_start Cell.empty ++ (List.range' 1 (7 - month_start)).map Cell.intDay)
    let next_week_start := 8 - month_start
    let next_week_end := next_week_start + 7
    Except.ok ⟨month_start, day_count, weeks, first_week, next_week_start, next_week_end,
      [next_week_start], none⟩

/-- A calendar date as the source uses it: year, month 1..12, day 1..31. -/
structure PyDate where
  year : Int
  month : Nat
  day : Nat

/-- Full month names as strftime with the capital B directive produces,
index zero unused. -/
def month_name : List String :=
  ["", "January", "February", "March", "April", "May", "June",
   "July", "August", "September", "October", "November", "December"]

/-- The module level journal path literal of the source. -/
def journal_path : List String := [".\\journal\\"]

/-- Observable evaluation state of get_entry_path: the computed day path
and the returned value, which is None because the source body ends without
a return statement. -/
structure EntryPathState where
  day_path : List String
  retval : Option (List String)
deriving DecidableEq

/-- get_entry_path from the source: builds the year, month and file name
components, fixes the extension, joins the day path, and returns None. -/
def get_entry_path (date : PyDate) (extension : Option String) : EntryPathState :=
  let year_path := journal_path ++ [toString date.year]
  let month_path := year_path ++ [month_name.getD date.month ("")]
  let ord_suffix := get_ordinal_suffix date.day
  let ext :=
    match extension with
    | none => ""
    | some e => if e.take 1 ≠ "." then "." ++ e else e
  let file_name := Nat.repr date.day ++ ord_suffix ++ ext
  let day_path := month_path ++ [file_name]
  ⟨day_path, none⟩

/-- Cells whose rendered width is exactly six characters: day numbers
below one hundred and empty cells. -/
def cellOkb : Cell → Bool
  | Cell.intDay n => decide (n < 100)
  | Cell.strDay _ => false
  | Cell.empty => true

/-- The weekday functions only produce values below seven. -/
theorem calendar_weekday_lt (year : Int) (m d : Nat) : calendar_weekday year m d < 7 := by
  simp only [calendar_weekday, date_weekday]
  exact Nat.mod_lt _ (by decide)

/-- For a valid month, format_month succeeds and its month start field is
the adjusted weekday of the first of the month. -/
theorem format_month_month_start (year month clock : Int) (hm : 1 ≤ month ∧ month ≤ 12) :
    Except.map MonthState.month_start (format_month year month clock) =
      Except.ok ((calendar_weekday (if year = 0 then clock else year) month.toNat 1 + 1) % 7) := by
  simp only [format_month, monthrange, _adjust_weekday]
  rw [if_pos hm]
  rfl

/-- For a valid month, format_month succeeds. -/
theorem format_month_isOk (year month clock : Int) (hm : 1 ≤ month ∧ month ≤ 12) :
    ∃ st, format_month year month clock = Except.ok st := by
  simp only [format_month, monthrange, _adjust_weekday]
  rw [if_pos hm]
  exact ⟨_, rfl⟩

/-- For an invalid month, format_month propagates the illegal month error. -/
theorem format_month_error (year month clock : Int) (hm : ¬(1 ≤ month ∧ month ≤ 12)) :
    format_month year month clock = Except.error (CalendarError.illegalMonth month) := by
  simp only [format_month, monthrange]
  rw [if_neg hm]

/-- Every cell accepted by cellOkb renders to exactly six characters. -/
theorem day_formatter_len (c : Cell) (h : cellOkb c = true) : (day_formatter c).length = 6 := by
  cases c with
  | intDay n =>
    have key : ∀ m : Nat, m < 100 → (day_formatter (Cell.intDay m)).length = 6 := by decide
    have hn : n < 100 := by simpa [cellOkb] using h
    exact key n hn
  | strDay s => simp [cellOkb] at h
  | empty => rfl

/-- Length of a pipe join of six character strings. -/
theorem str_join_pipe_length : ∀ l : List String, (∀ x ∈ l, x.length = 6) → l ≠ [] →
    (str_join ("|") l).length = 7 * l.length - 1 := by
  intro l
  induction l with
  | nil => intro _ hne; exact absurd rfl hne
  | cons a rest ih =>
    intro hlen _
    cases rest with
    | nil =>
      have ha := hlen a (by simp)
      simp [str_join, ha]
    | cons b t =>
      have hb := ih (fun x hx => hlen x (by simp [hx])) (by simp)
      have ha := hlen a (by simp)
      simp only [str_join]
      rw [String.length_append, String.length_append, ha, hb]
      have hp : ("|" : String).length = 1 := rfl
      rw [hp]
      simp only [List.length_cons]
      omega

/-- C1: at the valid input year 2024, month 1, format_month does not return
any sequence of rendered week rows: its body computes only the first week
row string, prints a debug value, and returns None (retval is none), so no
concatenation of row cells yields the days 1..31. -/
theorem c1_format_month_returns_no_rows :
    format_month 2024 1 2024 = Except.ok ⟨1, 31, 5,
      "|      |  1st |  2nd |  3rd |  4th |  5th |  6th |", 7, 14, [7], none⟩ := rfl

/-- C2: at year 2024, month 3, the row count demanded by the claim, the
ceiling of (start_weekday plus day_count) over seven computed on the
evaluation state, is 6, but the week count the code computes is 5, and the
function returns None, producing no rows at all. -/
theorem c2_format_month_week_count :
    Except.map (fun st => ((st.month_start + st.day_count + 6) / 7, st.weeks, st.retval))
      (format_month 2024 3 2024) = Except.ok (6, 5, none) := rfl

/-- C3 counterexample: on January 2024 the first of the month is a Monday,
the Monday first weekday of the code being 0, yet the start weekday value
format_month uses for first row padding is 1, not 0 as the claim states. -/
theorem c3_monday_padding_cex :
    calendar_weekday 2024 1 1 = 0 ∧
    Except.map MonthState.month_start (format_month 2024 1 2024) = Except.ok 1 := ⟨rfl, rfl⟩

/-- C3 amended: the start weekday value format_month uses for first row
padding is the Monday first weekday of the first of the month shifted by
plus one modulo seven, that is, normalized to a Sunday first convention:
it equals 0 exactly when the first of the month is a Sunday. -/
theorem c3_start_weekday_sunday_first (year month clock : Int) (v : Nat)
    (h : Except.map MonthState.month_start (format_month year month clock) = Except.ok v) :
    v = (calendar_weekday (if year = 0 then clock else year) month.toNat 1 + 1) % 7 ∧
    (v = 0 ↔ calendar_weekday (if year = 0 then clock else year) month.toNat 1 = 6) := by
  by_cases hm : 1 ≤ month ∧ month ≤ 12
  · rw [format_month_month_start year month clock hm] at h
    have hv := Except.ok.inj h
    have hlt : calendar_weekday (if year = 0 then clock else year) month.toNat 1 < 7 :=
      calendar_weekday_lt _ _ _
    constructor
    · exact hv.symm
    · omega
  · rw [format_month_error year month clock hm] at h
    simp [Except.map] at h

/-- C3 witness: applying the amended theorem to February 2026, whose first
day is a Sunday, shows the padding value is 0. -/
theorem c3_start_weekday_sunday_first_wit :
    (0 : Nat) = (calendar_weekday (if (2026 : Int) = 0 then 5 else 2026) (Int.toNat 2) 1 + 1) % 7 ∧
    ((0 : Nat) = 0 ↔ calendar_weekday (if (2026 : Int) = 0 then 5 else 2026) (Int.toNat 2) 1 = 6) :=
  c3_start_weekday_sunday_first 2026 2 5 0 rfl

/-- C4: the code compares n against the literals 11, 12 and 13 instead of
n modulo 100, so 112, whose residue modulo 100 is 12, receives the suffix
nd rather than th, and likewise 111 receives st; only the literals 11, 12
and 13 themselves receive th. -/
theorem c4_ordinal_112_not_th :
    get_ordinal_suffix 112 = "nd" ∧ (112 : Nat) % 100 = 12 ∧
    get_ordinal_suffix 111 = "st" ∧ get_ordinal_suffix 113 = "rd" ∧
    get_ordinal_suffix 12 = "th" := by decide

/-- C5 counterexample: format_week performs no length validation at all:
applied to sequences of length 6 and of length 8 it succeeds and returns a
pipe delimited row with that many cells instead of failing. -/
theorem c5_format_week_no_length_check_cex :
    format_week (List.replicate 6 Cell.empty) = "|      |      |      |      |      |      |" ∧
    format_week (List.replicate 8 Cell.empty) =
      "|      |      |      |      |      |      |      |      |" := ⟨rfl, rfl⟩

/-- C5 amended: format_week never fails: for every nonempty sequence of
cells that render six characters wide it returns the pipe delimited row of
one cell per element, of length seven times the cell count plus one, with
no length seven requirement. -/
theorem c5_format_week_total (days : List Cell) (h1 : days ≠ [])
    (h2 : ∀ c ∈ days, cellOkb c = true) :
    (format_week days).length = 7 * days.length + 1 := by
  unfold format_week
  rw [String.length_append, String.length_append]
  have hmapne : days.map day_formatter ≠ [] := by simpa using h1
  have hlens : ∀ x ∈ days.map day_formatter, x.length = 6 := by
    intro x hx
    obtain ⟨c, hc, rfl⟩ := List.mem_map.1 hx
    exact day_formatter_len c (h2 c hc)
  rw [str_join_pipe_length (days.map day_formatter) hlens hmapne]
  have hp : ("|" : String).length = 1 := rfl
  rw [hp, List.length_map]
  have hpos : 0 < days.length := List.length_pos.2 h1
  omega

/-- C5 witness: a length six row of valid cells renders to 43 characters,
seven times six plus one. -/
theorem c5_format_week_total_wit :
    (format_week [Cell.intDay 1, Cell.empty, Cell.intDay 23,
      Cell.empty, Cell.empty, Cell.empty]).length = 43 :=
  c5_format_week_total [Cell.intDay 1, Cell.empty, Cell.intDay 23,
    Cell.empty, Cell.empty, Cell.empty] (by decide) (by decide)

/-- C6: for nonnegative n, if n modulo 10 is 1 and n modulo 100 is not 11
the suffix is st, if n modulo 10 is 2 and n modulo 100 is not 12 the
suffix is nd, and if n modulo 10 is 3 and n modulo 100 is not 13 the
suffix is rd. -/
theorem c6_ordinal_st_nd_rd (n : Nat) :
    (n % 10 = 1 ∧ n % 100 ≠ 11 → get_ordinal_suffix n = "st") ∧
    (n % 10 = 2 ∧ n % 100 ≠ 12 → get_ordinal_suffix n = "nd") ∧
    (n % 10 = 3 ∧ n % 100 ≠ 13 → get_ordinal_suffix n = "rd") := by
  refine ⟨?_, ?_, ?_⟩ <;> rintro ⟨h1, h2⟩ <;>
  · have e11 : n ≠ 11 := by omega
    have e12 : n ≠ 12 := by omega
    have e13 : n ≠ 13 := by omega
    unfold get_ordinal_suffix
    rw [if_neg e11, if_neg e12, if_neg e13, h1]

/-- C6 witness: the suffixes of 21, 22 and 23. -/
theorem c6_ordinal_st_nd_rd_wit :
    get_ordinal_suffix 21 = "st" ∧ get_ordinal_suffix 22 = "nd" ∧
    get_ordinal_suffix 23 = "rd" :=
  ⟨(c6_ordinal_st_nd_rd 21).1 ⟨by decide, by decide⟩,
   (c6_ordinal_st_nd_rd 22).2.1 ⟨by decide, by decide⟩,
   (c6_ordinal_st_nd_rd 23).2.2 ⟨by decide, by decide⟩⟩

/-- C7: for days 1 through 31 the rendered day cell is six characters, one
space, the width four right justified day number with its suffix, one
space, and the empty cell the row formatter produces has the same width. -/
theorem c7_cell_width (n : Nat) (h1 : 1 ≤ n) (h2 : n ≤ 31) :
    (format_date_table_day n).length = 6 ∧
    format_date_table_day n = " " ++ rjust 4 (Nat.repr n ++ get_ordinal_suffix n) ++ " " ∧
    (rjust 4 (Nat.repr n ++ get_ordinal_suffix n)).length = 4 ∧
    day_formatter Cell.empty = "      " ∧
    (day_formatter Cell.empty).length = (format_date_table_day n).length := by
  have key : ∀ m : Nat, m < 32 →
      (format_date_table_day m).length = 6 ∧
      (rjust 4 (Nat.repr m ++ get_ordinal_suffix m)).length = 4 := by decide
  obtain ⟨k1, k2⟩ := key n (by omega)
  refine ⟨k1, rfl, k2, rfl, ?_⟩
  rw [k1]
  rfl

/-- C7 witness: the cell for day 21 is six characters wide. -/
theorem c7_cell_width_wit : (format_date_table_day 21).length = 6 :=
  (c7_cell_width 21 (by decide) (by decide)).1

/-- C8: format_month fails with the illegal month error exactly when the
month is outside 1..12: inside that range it succeeds, outside it returns
the error carrying the month. -/
theorem c8_illegal_month_iff (year month clock : Int) :
    ((1 ≤ month ∧ month ≤ 12) → ∃ st, format_month year month clock = Except.ok st) ∧
    (¬(1 ≤ month ∧ month ≤ 12) → format_month year month clock =
      Except.error (CalendarError.illegalMonth month)) :=
  ⟨format_month_isOk year month clock, format_month_error year month clock⟩

/-- C8 witness: month 13 raises the illegal month error and month 5
succeeds. -/
theorem c8_illegal_month_iff_wit :
    format_month 2024 13 0 = Except.error (CalendarError.illegalMonth 13) ∧
    ∃ st, format_month 2024 5 0 = Except.ok st :=
  ⟨(c8_illegal_month_iff 2024 13 0).2 (by decide),
   (c8_illegal_month_iff 2024 5 0).1 (by decide)⟩

/-- C9: for every date and extension argument, get_entry_path computes the
four component day path internally but always returns None. -/
theorem c9_get_entry_path_returns_none (date : PyDate) (extension : Option String) :
    (get_entry_path date extension).retval = none ∧
    (get_entry_path date extension).day_path.length = 4 := by
  cases extension with
  | none => exact ⟨rfl, rfl⟩
  | some e => exact ⟨rfl, rfl⟩

/-- C10: with a nonzero year the evaluation of format_month is independent
of the clock year, while with year zero the clock year is substituted, so
the evaluations of February of year zero under the clock years 2023 and
2024 differ. -/
theorem c10_clock_dependence :
    (∀ year month clock clock2 : Int, year ≠ 0 →
      format_month year month clock = format_month year month clock2) ∧
    format_month 0 2 2023 ≠ format_month 0 2 2024 := by
  constructor
  · intro year month c1 c2 hy
    simp only [format_month, if_neg hy]
  · intro h
    have h1 : Except.map MonthState.month_start (format_month 0 2 2023) = Except.ok 3 := rfl
    rw [h] at h1
    have h2 : Except.map MonthState.month_start (format_month 0 2 2024) = Except.ok 4 := rfl
    rw [h2] at h1
    exact absurd (Except.ok.inj h1) (by decide)

/-- C10 witness: with the nonzero year 2024 two different clock years give
the same evaluation. -/
theorem c10_clock_dependence_wit :
    format_month 2024 2 1999 = format_month 2024 2 2050 :=
  c10_clock_dependence.1 2024 2 1999 2050 (by decide)

end Multitool
